import Mathlib

/-!
Shallow embedding of the iptsd contact stabilizer
(src/contacts/stability/stabilizer.hpp) and of the stylus motion shaper
(src/apps/daemon/stylus.hpp), together with theorems settling the
specification's claims against these definitions.

The floating-point scalars of the C++ code are modelled as real numbers;
note that in Lean division by zero yields zero.
-/

namespace Iptsd

/-- One tracked touch blob in one frame. contact.hpp is not part of the
sources; the fields follow the spec's data model: an optional persistent
track index, a 2D centroid `mean` and a 2D ellipse `size`. -/
structure Contact where
  index : Option Nat
  mean : ℝ × ℝ
  size : ℝ × ℝ

/-- Modelled from the spec: `Contact::find_in_frame` (declared in the missing
contact.hpp) locates the contact carrying the given track index inside a
frame; by the spec's invariant at most one contact of a frame carries a given
index, so the first match is the match. -/
def Contact.find_in_frame (index : Nat) (frame : List Contact) : Option Contact :=
  frame.find? fun c => decide (c.index = some index)

/-- Stabilizer configuration. config.hpp of the stability module is not part
of the sources; the fields and their optionality are from the spec. -/
structure Config where
  temporal_window : Nat
  check_temporal_stability : Bool
  size_difference_threshold : Option ℝ
  movement_limits : Option (ℝ × ℝ)

/-- std::hypot on two arguments: the Euclidean norm of a 2D vector. -/
noncomputable def hypot (x y : ℝ) : ℝ :=
  Real.sqrt (x ^ 2 + y ^ 2)

/-- The mutable state of a `Stabilizer`: the deque `m_frames` of the last
frames, oldest first. The constructor sizes it to `max temporal_window 2`
empty frames. -/
structure Stabilizer.State where
  frames : List (List Contact)

/-- The constructor `Stabilizer::Stabilizer`: a deque of
`max(config.temporal_window, 2)` empty frames. -/
def Stabilizer.init (cfg : Config) : Stabilizer.State :=
  ⟨List.replicate (max cfg.temporal_window 2) []⟩

/-- `Stabilizer::reset`: clears every stored frame. -/
def Stabilizer.reset (s : Stabilizer.State) : Stabilizer.State :=
  ⟨s.frames.map fun _ => []⟩

/-- `Stabilizer::stabilize_size`: if any axis of the elementwise absolute
size difference exceeds the configured threshold, the previous size replaces
the new one. -/
noncomputable def Stabilizer.stabilize_size (cfg : Config) (current last : Contact) : Contact :=
  match cfg.size_difference_threshold with
  | none => current
  | some size_thresh =>
    if |current.size.1 - last.size.1| ≤ size_thresh ∧
        |current.size.2 - last.size.2| ≤ size_thresh then
      current
    else
      { current with size := last.size }

/-- `Stabilizer::stabilize_movement`: with limits `(min, max)` and
`distance = hypot (current.mean - last.mean)`, a displacement inside the band
is shortened by `min` along its own direction, anything outside the band is
discarded and the previous mean reused. -/
noncomputable def Stabilizer.stabilize_movement (cfg : Config) (current last : Contact) : Contact :=
  match cfg.movement_limits with
  | none => current
  | some limit =>
    let dx := current.mean.1 - last.mean.1
    let dy := current.mean.2 - last.mean.2
    let distance := hypot dx dy
    if limit.1 ≤ distance ∧ distance ≤ limit.2 then
      { current with
        mean := (current.mean.1 - limit.1 * (dx / distance),
                 current.mean.2 - limit.1 * (dy / distance)) }
    else
      { current with mean := last.mean }

/-- `Stabilizer::stabilize_contact`: an untrackable contact, a configured
window below 2, or a contact with no counterpart in the previous frame is
left untouched; otherwise size and movement corrections are applied against
the matched contact of the previous frame. -/
noncomputable def Stabilizer.stabilize_contact (cfg : Config) (frame : List Contact)
    (contact : Contact) : Contact :=
  match contact.index with
  | none => contact
  | some index =>
    if cfg.temporal_window < 2 then
      contact
    else
      match Contact.find_in_frame index frame with
      | none => contact
      | some last =>
        Stabilizer.stabilize_movement cfg
          (Stabilizer.stabilize_size cfg contact last) last

/-- `Stabilizer::check_temporal`: a contact without an index is temporally
stable; a contact with an index is stable iff the index is found in every
stored frame. -/
def Stabilizer.check_temporal (frames : List (List Contact)) (contact : Contact) : Bool :=
  match contact.index with
  | none => true
  | some index => frames.all fun f => (Contact.find_in_frame index f).isSome

/-- `Stabilizer::stabilize`: correct every contact against the newest stored
frame, evict the oldest stored frame, optionally filter the reported frame by
temporal stability against the remaining history, and store the corrected
(unfiltered) frame as the newest history entry. Returns the reported frame
and the new state. -/
noncomputable def Stabilizer.stabilize (cfg : Config) (s : Stabilizer.State)
    (frame : List Contact) : List Contact × Stabilizer.State :=
  let corrected := frame.map (Stabilizer.stabilize_contact cfg (s.frames.getLast?.getD []))
  let rest := s.frames.tail
  let out :=
    if cfg.check_temporal_stability = true ∧ 2 ≤ cfg.temporal_window then
      corrected.filter (Stabilizer.check_temporal rest)
    else
      corrected
  (out, ⟨rest ++ [corrected]⟩)

/-- Modelled from the spec: one decoded stylus sample (ipts::StylusData from
ipts/data.hpp, which is not part of the sources): normalized position and
pressure, spherical tilt angles in radians, the four state booleans and the
raw device-clock timestamp. -/
structure StylusData where
  x : ℝ
  y : ℝ
  pressure : ℝ
  altitude : ℝ
  azimuth : ℝ
  contact : Bool
  proximity : Bool
  rubber : Bool
  button : Bool
  timestamp : Int

/-- Modelled from the spec: the consumed interface of the external
single-pointer predictor over an abstract state type `σ`: reset, feed one
sample, and predict by a horizon. The position and pressure accessors are
valid only after a successful predict, so they are bundled into predict's
successful result. -/
structure Predictor (σ : Type) where
  reset : σ → σ
  update : σ → ℝ × ℝ → ℝ → σ
  predict : σ → Nat → Option ((ℝ × ℝ) × ℝ)

/-- One event emitted to the uinput device: a key event, an absolute-axis
event, or the SYN_REPORT marker committing one report. -/
inductive Event where
  | key (code : Nat) (value : Int)
  | abs (code : Nat) (value : Int)
  | syn
deriving DecidableEq

def BTN_TOUCH : Nat := 330
def BTN_STYLUS : Nat := 331
def BTN_TOOL_PEN : Nat := 320
def BTN_TOOL_RUBBER : Nat := 321
def ABS_X : Nat := 0
def ABS_Y : Nat := 1
def ABS_PRESSURE : Nat := 24
def ABS_TILT_X : Nat := 26
def ABS_TILT_Y : Nat := 27
def ABS_MISC : Nat := 40

/-- The fixed output ranges MAX_X, MAX_Y, MAX_P of `StylusDevice`. -/
def MAX_X : Nat := 9600

def MAX_Y : Nat := 7200

def MAX_P : Nat := 4096

/-- std::round: round half away from zero, as an integer. -/
noncomputable def roundHalfAway (x : ℝ) : Int :=
  if 0 ≤ x then ⌊x + 1 / 2⌋ else ⌈x - 1 / 2⌉

/-- std::atan2 with the usual quadrant conventions; `atan2 0 0 = 0`. -/
noncomputable def atan2 (y x : ℝ) : ℝ :=
  if 0 < x then Real.arctan (y / x)
  else if x < 0 ∧ 0 ≤ y then Real.arctan (y / x) + Real.pi
  else if x < 0 ∧ y < 0 then Real.arctan (y / x) - Real.pi
  else if x = 0 ∧ 0 < y then Real.pi / 2
  else if x = 0 ∧ y < 0 then -(Real.pi / 2)
  else 0

/-- `StylusDevice::calculate_tilt`: a non-positive altitude gives zero tilt;
otherwise the spherical angles are remapped through atan2 and scaled into
hundredths of a degree. -/
noncomputable def StylusDevice.calculate_tilt (altitude azimuth : ℝ) : Int × Int :=
  if altitude ≤ 0 then (0, 0)
  else
    let sin_alt := Real.sin altitude
    let sin_azm := Real.sin azimuth
    let cos_alt := Real.cos altitude
    let cos_azm := Real.cos azimuth
    let atan_x := atan2 cos_alt (sin_alt * cos_azm)
    let atan_y := atan2 cos_alt (sin_alt * sin_azm)
    (9000 - roundHalfAway (atan_x * 4500 / (Real.pi / 4)),
     roundHalfAway (atan_y * 4500 / (Real.pi / 4)) - 9000)

/-- The mutable state of a `StylusDevice`: the enabled flag, the active
flag, the last processed sample, the predictor state and the configured
prediction horizon in milliseconds. -/
structure StylusState (σ : Type) where
  enabled : Bool
  active : Bool
  last : StylusData
  pred : σ
  prediction_target : Nat

/-- `StylusDevice::lift`: the four button-clear events. -/
def StylusDevice.lift : List Event :=
  [Event.key BTN_TOUCH 0, Event.key BTN_TOOL_PEN 0,
   Event.key BTN_TOOL_RUBBER 0, Event.key BTN_STYLUS 0]

/-- The four button events of the active branch of `StylusDevice::update`. -/
def StylusDevice.buttonEvents (d : StylusData) : List Event :=
  [Event.key BTN_TOUCH (if d.contact then 1 else 0),
   Event.key BTN_TOOL_PEN (if d.rubber then 0 else 1),
   Event.key BTN_TOOL_RUBBER (if d.rubber then 1 else 0),
   Event.key BTN_STYLUS (if d.button then 1 else 0)]

/-- The absolute-axis events of the active branch of `StylusDevice::update`,
given the working position `(cx, cy)` and pressure `cp`. -/
noncomputable def StylusDevice.absEvents (d : StylusData) (cx cy cp : ℝ) : List Event :=
  [Event.abs ABS_X (roundHalfAway (cx * (MAX_X : ℝ))),
   Event.abs ABS_Y (roundHalfAway (cy * (MAX_Y : ℝ))),
   Event.abs ABS_PRESSURE (roundHalfAway (cp * (MAX_P : ℝ))),
   Event.abs ABS_MISC d.timestamp,
   Event.abs ABS_TILT_X (StylusDevice.calculate_tilt d.altitude d.azimuth).1,
   Event.abs ABS_TILT_Y (StylusDevice.calculate_tilt d.altitude d.azimuth).2]

/-- The prediction step of `StylusDevice::update`: when the horizon is
positive and the tip is in contact, feed the predictor and ask it to
predict; on success the predicted position and pressure replace the working
values, on failure the raw sample values stay. Returns the new predictor
state and the working position and pressure. -/
def StylusDevice.runPrediction {σ : Type} (P : Predictor σ) (pred : σ) (target : Nat)
    (d : StylusData) : σ × ℝ × ℝ × ℝ :=
  if 0 < target ∧ d.contact = true then
    let fed := P.update pred (d.x, d.y) d.pressure
    match P.predict fed target with
    | some ((px, py), pp) => (fed, px, py, pp)
    | none => (fed, d.x, d.y, d.pressure)
  else
    (pred, d.x, d.y, d.pressure)

/-- The active branch of `StylusDevice::update`: run prediction, then emit
buttons, axes and the SYN_REPORT marker. -/
noncomputable def StylusDevice.activeReport {σ : Type} (P : Predictor σ) (pred : σ)
    (target : Nat) (d : StylusData) : σ × List Event :=
  let r := StylusDevice.runPrediction P pred target d
  (r.1,
   StylusDevice.buttonEvents d ++ StylusDevice.absEvents d r.2.1 r.2.2.1 r.2.2.2 ++
     [Event.syn])

/-- `StylusDevice::update`: reset the predictor on a begin-contact edge, set
active from proximity, force a one-frame lift on a tool flip, then either
emit a full report or a lift, record the sample as `m_last`, and sync.
Returns the new state and the emitted events. -/
noncomputable def StylusDevice.update {σ : Type} (P : Predictor σ) (st : StylusState σ)
    (d : StylusData) : StylusState σ × List Event :=
  let pred0 := if st.last.contact = false ∧ d.contact = true then P.reset st.pred else st.pred
  let active := if st.last.rubber ≠ d.rubber then false else d.proximity
  if active then
    let r := StylusDevice.activeReport P pred0 st.prediction_target d
    ({ st with active := active, last := d, pred := r.1 }, r.2)
  else
    ({ st with active := active, last := d, pred := pred0 },
     StylusDevice.lift ++ [Event.syn])

/-- `StylusDevice::disable`: clear the enabled and active flags, emit a lift
and sync. -/
def StylusDevice.disable {σ : Type} (st : StylusState σ) : StylusState σ × List Event :=
  ({ st with enabled := false, active := false }, StylusDevice.lift ++ [Event.syn])

/-- `StylusDevice::enable`: set the enabled flag only. -/
def StylusDevice.enable {σ : Type} (st : StylusState σ) : StylusState σ :=
  { st with enabled := true }

/-- Concrete contact at the origin carrying track index 0. -/
noncomputable def prevC : Contact := ⟨some 0, (0, 0), (0, 0)⟩

/-- Concrete contact with track index 0 at mean (0, 1/2). -/
noncomputable def curC : Contact := ⟨some 0, (0, 1 / 2), (0, 0)⟩

/-- Concrete contact with track index 0 at mean (3, 4). -/
noncomputable def mvCur : Contact := ⟨some 0, (3, 4), (0, 0)⟩

/-- Concrete untracked contact of size (0, 0). -/
noncomputable def szA : Contact := ⟨none, (0, 0), (0, 0)⟩

/-- Concrete untracked contact of size (3, 0). -/
noncomputable def szB : Contact := ⟨none, (0, 0), (3, 0)⟩

/-- Concrete contact with track index 1 at the origin. -/
noncomputable def newC : Contact := ⟨some 1, (0, 0), (0, 0)⟩

/-- Concrete configuration requesting a temporal window of 1, no temporal
filtering, no size threshold and movement limits (1, 5). -/
noncomputable def cfgW1 : Config := ⟨1, false, none, some (1, 5)⟩

/-- Concrete configuration with window 2, no filtering, no size threshold
and movement limits (2, 10). -/
noncomputable def cfgMv : Config := ⟨2, false, none, some (2, 10)⟩

/-- Concrete configuration with window 2, temporal filtering on, and no
correction thresholds. -/
noncomputable def cfgTmp : Config := ⟨2, true, none, none⟩

/-- Concrete configuration with window 2, no filtering, size threshold 1 and
no movement limits. -/
noncomputable def cfgSz : Config := ⟨2, false, some 1, none⟩

/-- Concrete configuration with window 2, no filtering, and movement limits
(0, 1) whose lower bound is zero. -/
noncomputable def cfgZeroMin : Config := ⟨2, false, none, some (0, 1)⟩

/-- Concrete stabilizer state whose two stored frames both hold `prevC`. -/
noncomputable def stW1 : Stabilizer.State := ⟨[[prevC], [prevC]]⟩

/-- A trivial concrete predictor whose predictions always fail. -/
def predNone : Predictor Unit := ⟨fun s => s, fun s _ _ => s, fun _ _ => none⟩

/-- Concrete stylus sample: tip in contact, in proximity, pen tool. -/
noncomputable def dC : StylusData := ⟨0, 0, 0, 0, 0, true, true, false, false, 0⟩

/-- Concrete stylus sample: eraser tool, in proximity, no contact. -/
noncomputable def dFlip : StylusData := ⟨0, 0, 0, 0, 0, false, true, true, false, 0⟩

/-- Concrete stylus state whose last sample is `dC`, with horizon 1 ms. -/
noncomputable def stC : StylusState Unit := ⟨true, false, dC, (), 1⟩

lemma hypot_nonneg (x y : ℝ) : 0 ≤ hypot x y :=
  Real.sqrt_nonneg _

lemma hypot_eq (x y r : ℝ) (hr : 0 ≤ r) (h : x ^ 2 + y ^ 2 = r ^ 2) : hypot x y = r := by
  unfold hypot
  rw [h, Real.sqrt_sq hr]

lemma hypot_eq_zero_iff (x y : ℝ) : hypot x y = 0 ↔ x = 0 ∧ y = 0 := by
  unfold hypot
  rw [Real.sqrt_eq_zero']
  constructor
  · intro h
    have hx : x ^ 2 = 0 := le_antisymm (by nlinarith [sq_nonneg y]) (sq_nonneg x)
    have hy : y ^ 2 = 0 := le_antisymm (by nlinarith [sq_nonneg x]) (sq_nonneg y)
    exact ⟨pow_eq_zero_iff two_ne_zero |>.mp hx, pow_eq_zero_iff two_ne_zero |>.mp hy⟩
  · rintro ⟨hx, hy⟩
    simp [hx, hy]

lemma stabilize_contact_of_window_lt_two (cfg : Config) (frame : List Contact)
    (hw : cfg.temporal_window < 2) (c : Contact) :
    Stabilizer.stabilize_contact cfg frame c = c := by
  cases hc : c.index <;> simp [Stabilizer.stabilize_contact, hc, hw]

lemma stabilize_movement_out_of_band (cfg : Config) (current last : Contact) (mn mx : ℝ)
    (h : cfg.movement_limits = some (mn, mx))
    (hband : ¬(mn ≤ hypot (current.mean.1 - last.mean.1) (current.mean.2 - last.mean.2) ∧
        hypot (current.mean.1 - last.mean.1) (current.mean.2 - last.mean.2) ≤ mx)) :
    Stabilizer.stabilize_movement cfg current last = { current with mean := last.mean } := by
  unfold Stabilizer.stabilize_movement
  rw [h]
  exact if_neg hband

lemma stabilize_movement_in_band (cfg : Config) (current last : Contact) (mn mx : ℝ)
    (h : cfg.movement_limits = some (mn, mx))
    (hband : mn ≤ hypot (current.mean.1 - last.mean.1) (current.mean.2 - last.mean.2) ∧
        hypot (current.mean.1 - last.mean.1) (current.mean.2 - last.mean.2) ≤ mx) :
    Stabilizer.stabilize_movement cfg current last =
      { current with
        mean := (current.mean.1 -
            mn * ((current.mean.1 - last.mean.1) /
              hypot (current.mean.1 - last.mean.1) (current.mean.2 - last.mean.2)),
          current.mean.2 -
            mn * ((current.mean.2 - last.mean.2) /
              hypot (current.mean.1 - last.mean.1) (current.mean.2 - last.mean.2))) } := by
  unfold Stabilizer.stabilize_movement
  rw [h]
  exact if_pos hband

/-- C1: with a requested temporal window of at most 1 and temporal-stability
checking off, `stabilize` removes no contact — but contrary to the claim, no
size or movement correction is applied either, because `stabilize_contact`
returns early whenever the configured window is below 2 (the clamp to 2 only
sizes the history deque). Here the configured movement limits would pin the
matched contact `curC` back to `prevC.mean = (0, 0)`, yet `stabilize` leaves
its mean at `(0, 1/2)`. -/
theorem c1_counterexample :
    (Stabilizer.stabilize cfgW1 stW1 [curC]).1 = [curC] ∧
    (Stabilizer.stabilize_movement cfgW1 curC prevC).mean = ((0 : ℝ), (0 : ℝ)) ∧
    curC.mean ≠ ((0 : ℝ), (0 : ℝ)) := by
  have hd : hypot (curC.mean.1 - prevC.mean.1) (curC.mean.2 - prevC.mean.2) = 1 / 2 := by
    apply hypot_eq
    · norm_num
    · norm_num [curC, prevC]
  refine ⟨?_, ?_, ?_⟩
  · have hid : ∀ c : Contact,
        Stabilizer.stabilize_contact cfgW1 (stW1.frames.getLast?.getD []) c = c :=
      stabilize_contact_of_window_lt_two _ _ (by norm_num [cfgW1])
    have hck : cfgW1.check_temporal_stability = false := rfl
    simp [Stabilizer.stabilize, hid, hck]
  · rw [stabilize_movement_out_of_band cfgW1 curC prevC 1 5 rfl
      (by rw [hd]; norm_num)]
    simp [prevC]
  · norm_num [curC, Prod.ext_iff]

/-- C1 (amended): with a requested temporal window of at most 1 and
temporal-stability checking off, `stabilize` returns the frame exactly
unchanged: no contact is removed and no contact is size- or
movement-corrected, because `stabilize_contact` returns early when the
configured window is below 2. -/
theorem c1_small_window_passthrough (cfg : Config) (s : Stabilizer.State)
    (frame : List Contact) (hw : cfg.temporal_window ≤ 1)
    (hc : cfg.check_temporal_stability = false) :
    (Stabilizer.stabilize cfg s frame).1 = frame := by
  have hw2 : cfg.temporal_window < 2 := by omega
  have hid : (Stabilizer.stabilize_contact cfg (s.frames.getLast?.getD [])) = fun c => c :=
    funext (stabilize_contact_of_window_lt_two _ _ hw2)
  simp [Stabilizer.stabilize, hid, hc]

/-- C1 (witness): the amended passthrough at the concrete window-1
configuration. -/
theorem c1_small_window_passthrough_witness :
    (Stabilizer.stabilize cfgW1 stW1 [prevC, newC]).1 = [prevC, newC] :=
  c1_small_window_passthrough cfgW1 stW1 [prevC, newC] (Nat.le_refl 1) rfl

/-- C2: movement correction of a matched contact with limits `(mn, mx)`:
writing `P` for the previous mean, `Q` for the new mean and `d` for their
Euclidean distance, a distance outside `[mn, mx]` yields exactly `P`, and a
distance inside the band yields `P + (d - mn) * (Q - P) / d`. -/
theorem c2_movement_correction (cfg : Config) (current last : Contact) (mn mx : ℝ)
    (h : cfg.movement_limits = some (mn, mx)) :
    (hypot (current.mean.1 - last.mean.1) (current.mean.2 - last.mean.2) < mn ∨
        mx < hypot (current.mean.1 - last.mean.1) (current.mean.2 - last.mean.2) →
      (Stabilizer.stabilize_movement cfg current last).mean = last.mean) ∧
    (mn ≤ hypot (current.mean.1 - last.mean.1) (current.mean.2 - last.mean.2) ∧
        hypot (current.mean.1 - last.mean.1) (current.mean.2 - last.mean.2) ≤ mx →
      (Stabilizer.stabilize_movement cfg current last).mean =
        (last.mean.1 +
            (hypot (current.mean.1 - last.mean.1) (current.mean.2 - last.mean.2) - mn) *
              (current.mean.1 - last.mean.1) /
              hypot (current.mean.1 - last.mean.1) (current.mean.2 - last.mean.2),
          last.mean.2 +
            (hypot (current.mean.1 - last.mean.1) (current.mean.2 - last.mean.2) - mn) *
              (current.mean.2 - last.mean.2) /
              hypot (current.mean.1 - last.mean.1) (current.mean.2 - last.mean.2))) := by
  constructor
  · intro hout
    rw [stabilize_movement_out_of_band cfg current last mn mx h ?_]
    rintro ⟨h1, h2⟩
    rcases hout with h3 | h3 <;> linarith
  · intro hband
    rw [stabilize_movement_in_band cfg current last mn mx h hband]
    by_cases hd : hypot (current.mean.1 - last.mean.1) (current.mean.2 - last.mean.2) = 0
    · obtain ⟨hx, hy⟩ := (hypot_eq_zero_iff _ _).mp hd
      have hx' : current.mean.1 = last.mean.1 := by linarith
      have hy' : current.mean.2 = last.mean.2 := by linarith
      simp [Prod.ext_iff, hx, hy, hx', hy']
    · simp only [Prod.mk.injEq]
      constructor
      · field_simp
        ring
      · field_simp
        ring

/-- C2 (witness): with limits (2, 10), previous mean (0, 0) and new mean
(3, 4), the distance 5 lies in the band and the corrected mean is the
displacement shortened by 2: (9/5, 12/5). -/
theorem c2_movement_correction_witness :
    (Stabilizer.stabilize_movement cfgMv mvCur prevC).mean = ((9 : ℝ) / 5, (12 : ℝ) / 5) := by
  have hd : hypot (mvCur.mean.1 - prevC.mean.1) (mvCur.mean.2 - prevC.mean.2) = 5 := by
    apply hypot_eq
    · norm_num
    · norm_num [mvCur, prevC]
  have h := (c2_movement_correction cfgMv mvCur prevC 2 10 rfl).2 (by rw [hd]; norm_num)
  rw [hd] at h
  rw [h]
  norm_num [mvCur, prevC, Prod.ext_iff]

/-- C8: size correction of a matched contact with threshold `t`: if the
elementwise absolute size difference stays within `t` on both axes the new
size is kept, otherwise the previous size replaces it on both axes. -/
theorem c8_size_correction (cfg : Config) (current last : Contact) (t : ℝ)
    (h : cfg.size_difference_threshold = some t) :
    ((|current.size.1 - last.size.1| ≤ t ∧ |current.size.2 - last.size.2| ≤ t) →
      (Stabilizer.stabilize_size cfg current last).size = current.size) ∧
    (¬(|current.size.1 - last.size.1| ≤ t ∧ |current.size.2 - last.size.2| ≤ t) →
      (Stabilizer.stabilize_size cfg current last).size = last.size) := by
  simp only [Stabilizer.stabilize_size, h]
  constructor
  · intro hin
    rw [if_pos hin]
  · intro hout
    rw [if_neg hout]

/-- C8 (witness): with threshold 1, previous size (0, 0) and new size (3, 0),
the first axis exceeds the threshold and the previous size is restored. -/
theorem c8_size_correction_witness :
    (Stabilizer.stabilize_size cfgSz szB szA).size = szA.size :=
  (c8_size_correction cfgSz szB szA 1 rfl).2 (by norm_num [szA, szB])

/-- C9: counterexample. With movement limits (0, 1) and a contact that did
not move, the correction branch is taken (0 ≤ distance ∧ distance ≤ 1) while
the divisor distance is exactly 0, refuting the claim that the branch always
has a nonzero divisor. -/
theorem c9_counterexample :
    cfgZeroMin.movement_limits = some ((0 : ℝ), (1 : ℝ)) ∧
    (0 : ℝ) ≤ hypot (prevC.mean.1 - prevC.mean.1) (prevC.mean.2 - prevC.mean.2) ∧
    hypot (prevC.mean.1 - prevC.mean.1) (prevC.mean.2 - prevC.mean.2) ≤ 1 ∧
    hypot (prevC.mean.1 - prevC.mean.1) (prevC.mean.2 - prevC.mean.2) = 0 := by
  have hd : hypot (prevC.mean.1 - prevC.mean.1) (prevC.mean.2 - prevC.mean.2) = 0 :=
    (hypot_eq_zero_iff _ _).mpr ⟨by ring, by ring⟩
  refine ⟨rfl, hypot_nonneg _ _, ?_, hd⟩
  rw [hd]
  norm_num

/-- C9 (amended): whenever the correction branch is taken and the configured
lower movement limit is positive, the divisor distance is nonzero, so the
division in the correction is well-defined; with a non-positive lower limit
a zero displacement takes the branch with a zero divisor. -/
theorem c9_positive_min_divisor_nonzero (cfg : Config) (current last : Contact)
    (mn mx : ℝ) (h : cfg.movement_limits = some (mn, mx)) (hmn : 0 < mn)
    (hband : mn ≤ hypot (current.mean.1 - last.mean.1) (current.mean.2 - last.mean.2) ∧
        hypot (current.mean.1 - last.mean.1) (current.mean.2 - last.mean.2) ≤ mx) :
    hypot (current.mean.1 - last.mean.1) (current.mean.2 - last.mean.2) ≠ 0 := by
  intro h0
  rw [h0] at hband
  linarith [hband.1]

/-- C9 (witness): at limits (2, 10) and displacement (3, 4) the branch is
taken with distance 5 ≠ 0. -/
theorem c9_positive_min_divisor_nonzero_witness :
    hypot (mvCur.mean.1 - prevC.mean.1) (mvCur.mean.2 - prevC.mean.2) ≠ 0 := by
  have hd : hypot (mvCur.mean.1 - prevC.mean.1) (mvCur.mean.2 - prevC.mean.2) = 5 := by
    apply hypot_eq
    · norm_num
    · simp [mvCur, prevC]
      norm_num
  exact c9_positive_min_divisor_nonzero cfgMv mvCur prevC 2 10 rfl (by norm_num)
    (by rw [hd]; norm_num)

/-- C3: with temporal-stability checking on and a window of at least 2, a
contact of the corrected frame is reported iff it has no index or its index
is found in every frame of the history as it stands after the oldest frame
was evicted and before the new frame is inserted (that history is
`s.frames.tail`); in particular a contact lacking an index is always kept. -/
theorem c3_temporal_filtering (cfg : Config) (s : Stabilizer.State) (frame : List Contact)
    (hcheck : cfg.check_temporal_stability = true) (hw : 2 ≤ cfg.temporal_window)
    (c : Contact) :
    c ∈ (Stabilizer.stabilize cfg s frame).1 ↔
      c ∈ frame.map (Stabilizer.stabilize_contact cfg (s.frames.getLast?.getD [])) ∧
        (c.index = none ∨
          ∀ i : Nat, c.index = some i →
            ∀ f ∈ s.frames.tail, (Contact.find_in_frame i f).isSome = true) := by
  have hcond : cfg.check_temporal_stability = true ∧ 2 ≤ cfg.temporal_window := ⟨hcheck, hw⟩
  simp only [Stabilizer.stabilize, if_pos hcond, List.mem_filter]
  refine and_congr_right fun _ => ?_
  cases hidx : c.index with
  | none => simp [Stabilizer.check_temporal, hidx]
  | some i => simp [Stabilizer.check_temporal, hidx, List.all_eq_true]

/-- C3 (witness): at the concrete window-2 filtering configuration, the
reported-iff-tracked-everywhere equivalence for the contact `newC`. -/
theorem c3_temporal_filtering_witness :
    newC ∈ (Stabilizer.stabilize cfgTmp stW1 [prevC, newC]).1 ↔
      newC ∈ [prevC, newC].map
          (Stabilizer.stabilize_contact cfgTmp (stW1.frames.getLast?.getD [])) ∧
        (newC.index = none ∨
          ∀ i : Nat, newC.index = some i →
            ∀ f ∈ stW1.frames.tail, (Contact.find_in_frame i f).isSome = true) :=
  c3_temporal_filtering cfgTmp stW1 [prevC, newC] rfl (Nat.le_refl 2) newC

/-- C4: after every `stabilize` call the newest stored history frame is
exactly the post-correction frame of that cycle, and every contact the call
reports is one of those stored contacts — temporal filtering only shrinks
what is reported, never what is remembered. -/
theorem c4_history_stores_corrected (cfg : Config) (s : Stabilizer.State)
    (frame : List Contact) :
    (Stabilizer.stabilize cfg s frame).2.frames.getLast? =
      some (frame.map (Stabilizer.stabilize_contact cfg (s.frames.getLast?.getD []))) ∧
    ∀ c ∈ (Stabilizer.stabilize cfg s frame).1,
      c ∈ frame.map (Stabilizer.stabilize_contact cfg (s.frames.getLast?.getD [])) := by
  constructor
  · show (s.frames.tail ++ [frame.map _]).getLast? = _
    rw [List.getLast?_append_cons]
    rfl
  · intro c hc
    simp only [Stabilizer.stabilize] at hc
    by_cases hcond : cfg.check_temporal_stability = true ∧ 2 ≤ cfg.temporal_window
    · rw [if_pos hcond] at hc
      exact (List.mem_filter.mp hc).1
    · rw [if_neg hcond] at hc
      exact hc

/-- C4 (witness): storage of the corrected frame and membership of the
reported contact in it, at the concrete window-1 configuration. -/
theorem c4_history_stores_corrected_witness :
    (Stabilizer.stabilize cfgW1 stW1 [prevC]).2.frames.getLast? =
      some ([prevC].map (Stabilizer.stabilize_contact cfgW1 (stW1.frames.getLast?.getD []))) ∧
    prevC ∈ [prevC].map (Stabilizer.stabilize_contact cfgW1 (stW1.frames.getLast?.getD [])) := by
  have h := c4_history_stores_corrected cfgW1 stW1 [prevC]
  have hid : ∀ c : Contact,
      Stabilizer.stabilize_contact cfgW1 (stW1.frames.getLast?.getD []) c = c :=
    stabilize_contact_of_window_lt_two _ _ (by norm_num [cfgW1])
  refine ⟨h.1, h.2 prevC ?_⟩
  have hck : cfgW1.check_temporal_stability = false := rfl
  simp [Stabilizer.stabilize, hid, hck]

lemma roundHalfAway_zero : roundHalfAway 0 = 0 := by
  unfold roundHalfAway
  rw [if_pos le_rfl]
  rw [show (0 : ℝ) + 1 / 2 = 1 / 2 by norm_num]
  rw [Int.floor_eq_zero_iff.mpr]
  constructor <;> norm_num

lemma atan2_zero_one : atan2 0 1 = 0 := by
  unfold atan2
  rw [if_pos one_pos]
  norm_num

lemma atan2_zero_zero : atan2 0 0 = 0 := by
  unfold atan2
  norm_num

lemma update_flip_lift {σ : Type} (P : Predictor σ) (st : StylusState σ) (d : StylusData)
    (hflip : st.last.rubber ≠ d.rubber) :
    StylusDevice.update P st d =
      ({ st with
          active := false
          last := d
          pred := if st.last.contact = false ∧ d.contact = true then P.reset st.pred
            else st.pred },
        StylusDevice.lift ++ [Event.syn]) := by
  simp [StylusDevice.update, hflip]

lemma update_no_prox_lift {σ : Type} (P : Predictor σ) (st : StylusState σ) (d : StylusData)
    (hr : st.last.rubber = d.rubber) (hp : d.proximity = false) :
    StylusDevice.update P st d =
      ({ st with
          active := false
          last := d
          pred := if st.last.contact = false ∧ d.contact = true then P.reset st.pred
            else st.pred },
        StylusDevice.lift ++ [Event.syn]) := by
  simp [StylusDevice.update, hr, hp]

lemma runPrediction_none {σ : Type} (P : Predictor σ) (pred : σ) (target : Nat)
    (d : StylusData) (htgt : 0 < target) (hcontact : d.contact = true)
    (hn : P.predict (P.update pred (d.x, d.y) d.pressure) target = none) :
    StylusDevice.runPrediction P pred target d =
      (P.update pred (d.x, d.y) d.pressure, d.x, d.y, d.pressure) := by
  unfold StylusDevice.runPrediction
  rw [if_pos ⟨htgt, hcontact⟩]
  simp only [hn]

lemma runPrediction_some {σ : Type} (P : Predictor σ) (pred : σ) (target : Nat)
    (d : StylusData) (px py pp : ℝ) (htgt : 0 < target) (hcontact : d.contact = true)
    (hs : P.predict (P.update pred (d.x, d.y) d.pressure) target = some ((px, py), pp)) :
    StylusDevice.runPrediction P pred target d =
      (P.update pred (d.x, d.y) d.pressure, px, py, pp) := by
  unfold StylusDevice.runPrediction
  rw [if_pos ⟨htgt, hcontact⟩]
  simp only [hs]

lemma update_no_flip_active {σ : Type} (P : Predictor σ) (st : StylusState σ) (d : StylusData)
    (hr : st.last.rubber = d.rubber) (hp : d.proximity = true) :
    StylusDevice.update P st d =
      ({ st with
          active := true
          last := d
          pred := (StylusDevice.activeReport P
            (if st.last.contact = false ∧ d.contact = true then P.reset st.pred else st.pred)
            st.prediction_target d).1 },
        (StylusDevice.activeReport P
          (if st.last.contact = false ∧ d.contact = true then P.reset st.pred else st.pred)
          st.prediction_target d).2) := by
  simp [StylusDevice.update, hr, hp]

/-- C6: `calculate_tilt` is the stated pure function of altitude and
azimuth: a non-positive altitude gives (0, 0), a positive altitude gives the
atan2-based closed form, and at altitude π/2 with azimuth 0 the closed form
evaluates to (9000, -9000). -/
theorem c6_calculate_tilt :
    (∀ altitude azimuth : ℝ, altitude ≤ 0 →
      StylusDevice.calculate_tilt altitude azimuth = (0, 0)) ∧
    (∀ altitude azimuth : ℝ, 0 < altitude →
      StylusDevice.calculate_tilt altitude azimuth =
        (9000 - roundHalfAway (atan2 (Real.cos altitude)
            (Real.sin altitude * Real.cos azimuth) * 4500 / (Real.pi / 4)),
          roundHalfAway (atan2 (Real.cos altitude)
            (Real.sin altitude * Real.sin azimuth) * 4500 / (Real.pi / 4)) - 9000)) ∧
    StylusDevice.calculate_tilt (Real.pi / 2) 0 = (9000, -9000) := by
  refine ⟨?_, ?_, ?_⟩
  · intro altitude azimuth h
    unfold StylusDevice.calculate_tilt
    rw [if_pos h]
  · intro altitude azimuth h
    unfold StylusDevice.calculate_tilt
    rw [if_neg (not_le.mpr h)]
  · have hpos : (0 : ℝ) < Real.pi / 2 := by positivity
    unfold StylusDevice.calculate_tilt
    rw [if_neg (not_le.mpr hpos)]
    simp only [Real.sin_pi_div_two, Real.cos_pi_div_two, Real.sin_zero, Real.cos_zero,
      mul_one, mul_zero, one_mul]
    rw [atan2_zero_one, atan2_zero_zero]
    norm_num [roundHalfAway_zero, Prod.ext_iff]

/-- C6 (witness): the pure tilt function applied at a negative altitude and
at altitude π/2 with azimuth 0. -/
theorem c6_calculate_tilt_witness :
    StylusDevice.calculate_tilt (-1) 0 = (0, 0) ∧
    StylusDevice.calculate_tilt (Real.pi / 2) 0 = (9000, -9000) :=
  ⟨c6_calculate_tilt.1 (-1) 0 (by norm_num), c6_calculate_tilt.2.2⟩

/-- C5: a tool-identity flip between consecutive samples makes `update` emit
the one-frame lift (all four buttons cleared, no tool button set, then sync),
even when proximity stayed true, and leaves the device inactive; the state
then records the new sample, so a following update without a flip and with
proximity emits a full active report whose button events carry the new
tool. -/
theorem c5_rubber_flip_lift {σ : Type} (P : Predictor σ) (st : StylusState σ)
    (d : StylusData) (hflip : st.last.rubber ≠ d.rubber) :
    (StylusDevice.update P st d).2 =
      [Event.key BTN_TOUCH 0, Event.key BTN_TOOL_PEN 0, Event.key BTN_TOOL_RUBBER 0,
        Event.key BTN_STYLUS 0, Event.syn] ∧
    (StylusDevice.update P st d).1.active = false ∧
    (∀ d2 : StylusData, d2.rubber = d.rubber → d2.proximity = true →
      ∃ q : σ,
        (StylusDevice.update P (StylusDevice.update P st d).1 d2).2 =
          (StylusDevice.activeReport P q st.prediction_target d2).2 ∧
        Event.key BTN_TOOL_PEN (if d2.rubber then 0 else 1) ∈
          (StylusDevice.update P (StylusDevice.update P st d).1 d2).2 ∧
        Event.key BTN_TOOL_RUBBER (if d2.rubber then 1 else 0) ∈
          (StylusDevice.update P (StylusDevice.update P st d).1 d2).2) := by
  have h1 := update_flip_lift P st d hflip
  refine ⟨by rw [h1]; rfl, by rw [h1], ?_⟩
  intro d2 hr2 hp2
  rw [h1]
  rw [update_no_flip_active P _ d2 hr2.symm hp2]
  refine ⟨_, rfl, ?_, ?_⟩
  · simp [StylusDevice.activeReport, StylusDevice.buttonEvents]
  · simp [StylusDevice.activeReport, StylusDevice.buttonEvents]

/-- C5 (witness): the flip lift at a concrete pen-to-eraser transition with
proximity kept true. -/
theorem c5_rubber_flip_lift_witness :
    (StylusDevice.update predNone stC dFlip).2 =
      [Event.key BTN_TOUCH 0, Event.key BTN_TOOL_PEN 0, Event.key BTN_TOOL_RUBBER 0,
        Event.key BTN_STYLUS 0, Event.syn] ∧
    (StylusDevice.update predNone stC dFlip).1.active = false := by
  have h := c5_rubber_flip_lift predNone stC dFlip
    (by simp [stC, dC, dFlip])
  exact ⟨h.1, h.2.1⟩

/-- C7: in the active branch with a positive prediction horizon and the tip
in contact, the predictor is fed the current position and pressure; if its
prediction fails the emitted report uses exactly the raw sample position and
pressure (no other emitted field changes and no error arises), and if it
succeeds the report uses the predicted position and pressure. -/
theorem c7_prediction_fallback {σ : Type} (P : Predictor σ) (st : StylusState σ)
    (d : StylusData) (hprox : d.proximity = true) (hnoflip : st.last.rubber = d.rubber)
    (htgt : 0 < st.prediction_target) (hcontact : d.contact = true) :
    (P.predict (P.update (if st.last.contact = false ∧ d.contact = true then P.reset st.pred
          else st.pred) (d.x, d.y) d.pressure) st.prediction_target = none →
      (StylusDevice.update P st d).2 =
        StylusDevice.buttonEvents d ++ StylusDevice.absEvents d d.x d.y d.pressure ++
          [Event.syn]) ∧
    (∀ px py pp : ℝ,
      P.predict (P.update (if st.last.contact = false ∧ d.contact = true then P.reset st.pred
            else st.pred) (d.x, d.y) d.pressure) st.prediction_target =
          some ((px, py), pp) →
      (StylusDevice.update P st d).2 =
        StylusDevice.buttonEvents d ++ StylusDevice.absEvents d px py pp ++ [Event.syn]) := by
  rw [update_no_flip_active P st d hnoflip hprox]
  constructor
  · intro hn
    simp only [StylusDevice.activeReport,
      runPrediction_none P _ st.prediction_target d htgt hcontact hn]
  · intro px py pp hs
    simp only [StylusDevice.activeReport,
      runPrediction_some P _ st.prediction_target d px py pp htgt hcontact hs]

/-- C7 (witness): with the always-failing concrete predictor, horizon 1 and
a contacting sample, the emitted report carries the raw sample values. -/
theorem c7_prediction_fallback_witness :
    (StylusDevice.update predNone stC dC).2 =
      StylusDevice.buttonEvents dC ++ StylusDevice.absEvents dC dC.x dC.y dC.pressure ++
        [Event.syn] :=
  (c7_prediction_fallback predNone stC dC rfl rfl (Nat.le_refl 1) rfl).1 rfl

/-- C10: `update` never reads the enabled flag: for every stylus sample and
state, update on states differing only in `enabled` emits the same events
and computes the same active flag, last sample and predictor state; and
after `disable`, an update without a tool flip and with proximity true emits
a full active report again while the device is still marked disabled. -/
theorem c10_update_ignores_enabled {σ : Type} (P : Predictor σ) (st : StylusState σ)
    (d : StylusData) :
    ((StylusDevice.update P { st with enabled := true } d).2 =
        (StylusDevice.update P { st with enabled := false } d).2 ∧
      (StylusDevice.update P { st with enabled := true } d).1.active =
        (StylusDevice.update P { st with enabled := false } d).1.active ∧
      (StylusDevice.update P { st with enabled := true } d).1.last =
        (StylusDevice.update P { st with enabled := false } d).1.last ∧
      (StylusDevice.update P { st with enabled := true } d).1.pred =
        (StylusDevice.update P { st with enabled := false } d).1.pred) ∧
    (d.proximity = true → st.last.rubber = d.rubber →
      (StylusDevice.update P (StylusDevice.disable st).1 d).1.active = true ∧
      (StylusDevice.update P (StylusDevice.disable st).1 d).1.enabled = false ∧
      ∃ q : σ,
        (StylusDevice.update P (StylusDevice.disable st).1 d).2 =
          (StylusDevice.activeReport P q st.prediction_target d).2) := by
  constructor
  · by_cases hf : st.last.rubber ≠ d.rubber
    · rw [update_flip_lift P { st with enabled := true } d hf,
        update_flip_lift P { st with enabled := false } d hf]
      exact ⟨rfl, rfl, rfl, rfl⟩
    · have hf' : st.last.rubber = d.rubber := not_not.mp hf
      by_cases hp : d.proximity = true
      · rw [update_no_flip_active P { st with enabled := true } d hf' hp,
          update_no_flip_active P { st with enabled := false } d hf' hp]
        exact ⟨rfl, rfl, rfl, rfl⟩
      · have hp' : d.proximity = false := by
          revert hp
          cases d.proximity <;> simp
        rw [update_no_prox_lift P { st with enabled := true } d hf' hp',
          update_no_prox_lift P { st with enabled := false } d hf' hp']
        exact ⟨rfl, rfl, rfl, rfl⟩
  · intro hprox hrub
    rw [update_no_flip_active P (StylusDevice.disable st).1 d hrub hprox]
    exact ⟨rfl, rfl, _, rfl⟩

/-- C10 (witness): the enabled-independence and the resumes-after-disable
behaviour at a concrete state and sample. -/
theorem c10_update_ignores_enabled_witness :
    (StylusDevice.update predNone { stC with enabled := true } dC).2 =
      (StylusDevice.update predNone { stC with enabled := false } dC).2 ∧
    (StylusDevice.update predNone (StylusDevice.disable stC).1 dC).1.active = true ∧
    (StylusDevice.update predNone (StylusDevice.disable stC).1 dC).1.enabled = false := by
  have h := c10_update_ignores_enabled predNone stC dC
  exact ⟨h.1.1, (h.2 rfl rfl).1, (h.2 rfl rfl).2.1⟩

end Iptsd
